import Mathlib

/-
Verification of the data-access layer of the email_agent repository:
a shallow embedding of src/database/operations.ts, src/database/client.ts
and src/types/database.ts, together with theorems about the filter-to-query
builders, the error-propagation wrapper, and the connection manager.
-/

namespace EmailAgent

/-- JavaScript truthiness of an optional string value, as used by the guards
`if (filter.sender)` etc.: `undefined` and the empty string are falsy. -/
def truthyStr : Option String → Bool
  | none => false
  | some s => !(s == "")

/-- JavaScript truthiness of an optional number, as used by the guards
`if (filter.limit)` and `if (filter.offset)`: `undefined` and `0` are falsy. -/
def truthyInt : Option Int → Bool
  | none => false
  | some n => !(n == 0)

/-- Models the JavaScript expression `limit || d`: the value when present and
nonzero, otherwise the default `d`. -/
def orDefault : Option Int → Int → Int
  | none, d => d
  | some n, d => if n == 0 then d else n

/-- JavaScript `Date` values, abstracted to integer timestamps. -/
abbrev JsDate := Int

/-- Abstracts `Date.prototype.toISOString`; rendering is opaque to every
property proved here, only that it is a function of the date matters. -/
def toISOString (d : JsDate) : String := toString d

/-- Attachment metadata record (types/database.ts `AttachmentInfo`). -/
structure AttachmentInfo where
  filename : String
  mime_type : String
  size : Int
deriving DecidableEq, Repr

/-- Email record (types/database.ts `Email`). -/
structure Email where
  id : String
  sender : String
  subject : String
  date : JsDate
  body_text : Option String
  body_html : Option String
  attachment_info : Option (List AttachmentInfo)
  processed : Bool
  created_at : JsDate
deriving DecidableEq, Repr

/-- Link record (types/database.ts `Link`). -/
structure Link where
  id : String
  url : String
  anchor_text : Option String
  surrounding_context : Option String
  categories : List String
  email_id : String
  created_at : JsDate
deriving DecidableEq, Repr

/-- Filter for querying emails (types/database.ts `EmailFilter`); every field
is optional. -/
structure EmailFilter where
  sender : Option String := none
  subject : Option String := none
  dateFrom : Option JsDate := none
  dateTo : Option JsDate := none
  processed : Option Bool := none
  limit : Option Int := none
  offset : Option Int := none
deriving DecidableEq, Repr

/-- Filter for querying links (types/database.ts `LinkFilter`). -/
structure LinkFilter where
  url : Option String := none
  categories : Option (List String) := none
  emailId : Option String := none
  limit : Option Int := none
  offset : Option Int := none
deriving DecidableEq, Repr

/-- A compile-time value for a supabase `eq` predicate argument: the code
compares booleans (`processed`) and strings (`id`, `email_id`). -/
inductive JsVal where
  | vbool (b : Bool)
  | vstr (s : String)
deriving DecidableEq, Repr

/-- One predicate issued on the supabase query builder chain. -/
inductive Pred where
  | ilike (column pattern : String)
  | gte (column value : String)
  | lte (column value : String)
  | eq (column : String) (value : JsVal)
  | contains (column : String) (values : List String)
  | limit (count : Int)
  | range (lo hi : Int)
deriving DecidableEq, Repr

/-- The query value accumulated by the builder: target table, selection, and
the ordered list of predicates that were chained onto it. -/
structure Query where
  table : String
  selection : String
  preds : List Pred
deriving DecidableEq, Repr

/-- The predicate contributed by one `if (cond) query = query.m(...)` step:
a singleton when the guard is truthy, nothing otherwise. -/
def predIf (c : Bool) (p : Pred) : List Pred :=
  if c then [p] else []

/-- The predicate contributed by a presence-guarded step (`if (filter.dateFrom)`
on an object, or `filter.processed !== undefined`). -/
def optPred {A : Type} (o : Option A) (mk : A → Pred) : List Pred :=
  match o with
  | some a => [mk a]
  | none => []

/-- Shallow embedding of `buildEmailQuery` (operations.ts lines 69-95): base
query `from('emails').select('*')`, then each guarded predicate in source
order. String guards use JS truthiness (empty string is falsy), `processed`
uses an explicit `!== undefined` presence check, and `limit`/`offset` use
numeric truthiness, so a zero is skipped. The range upper bound is
`offset + (limit || 10) - 1`. -/
def buildEmailQuery (filter : EmailFilter) : Query :=
  { table := "emails"
    selection := "*"
    preds :=
      predIf (truthyStr filter.sender)
        (Pred.ilike "sender" ("%" ++ filter.sender.getD "" ++ "%")) ++
      predIf (truthyStr filter.subject)
        (Pred.ilike "subject" ("%" ++ filter.subject.getD "" ++ "%")) ++
      optPred filter.dateFrom (fun d => Pred.gte "date" (toISOString d)) ++
      optPred filter.dateTo (fun d => Pred.lte "date" (toISOString d)) ++
      optPred filter.processed (fun b => Pred.eq "processed" (JsVal.vbool b)) ++
      predIf (truthyInt filter.limit) (Pred.limit (filter.limit.getD 0)) ++
      predIf (truthyInt filter.offset)
        (Pred.range (filter.offset.getD 0)
          (filter.offset.getD 0 + orDefault filter.limit 10 - 1)) }

/-- The predicate contributed by the guard
`if (filter.categories && filter.categories.length > 0)`: presence and a
nonempty array are both required. -/
def categoriesPred (o : Option (List String)) : List Pred :=
  match o with
  | some cs => predIf (decide (cs.length > 0)) (Pred.contains "categories" cs)
  | none => []

/-- Shallow embedding of `buildLinkQuery` (operations.ts lines 114-134):
base query `from('links').select('*')`, then the guarded predicates in source
order; `categories` requires presence and nonempty length. -/
def buildLinkQuery (filter : LinkFilter) : Query :=
  { table := "links"
    selection := "*"
    preds :=
      predIf (truthyStr filter.url)
        (Pred.ilike "url" ("%" ++ filter.url.getD "" ++ "%")) ++
      categoriesPred filter.categories ++
      predIf (truthyStr filter.emailId)
        (Pred.eq "email_id" (JsVal.vstr (filter.emailId.getD ""))) ++
      predIf (truthyInt filter.limit) (Pred.limit (filter.limit.getD 0)) ++
      predIf (truthyInt filter.offset)
        (Pred.range (filter.offset.getD 0)
          (filter.offset.getD 0 + orDefault filter.limit 10 - 1)) }

/-- Database error kinds (types/database.ts `DatabaseErrorType`). -/
inductive DatabaseErrorType where
  | CONNECTION_ERROR
  | QUERY_ERROR
  | VALIDATION_ERROR
  | NOT_FOUND
deriving DecidableEq, Repr

/-- The raw error object reported by the store; the code only inspects its
`code` field (e.g. `'PGRST116'` for "no row found"). -/
structure StoreError where
  code : String
deriving DecidableEq, Repr

/-- A thrown JavaScript value: a `DatabaseError` instance carrying its type
discriminant, message and optional wrapped original error; a raw store error
object; or any other value. -/
inductive JsError where
  | dbError (type : DatabaseErrorType) (message : String) (originalError : Option JsError)
  | storeErr (e : StoreError)
  | other (description : String)

/-- The `error instanceof DatabaseError` test. -/
def JsError.isDatabaseError : JsError → Bool
  | .dbError _ _ _ => true
  | _ => false

/-- Shallow embedding of `withErrorHandling` (operations.ts lines 18-32):
a domain `DatabaseError` is re-thrown unchanged, any other thrown value is
wrapped into a `QUERY_ERROR` `DatabaseError` carrying it as `originalError`;
a successful result passes through. -/
def withErrorHandling {T : Type} (operation : Except JsError T)
    (errorMessage : String) : Except JsError T :=
  match operation with
  | .ok v => .ok v
  | .error e =>
    if e.isDatabaseError then .error e
    else .error (.dbError .QUERY_ERROR errorMessage (some e))

/-- The `{ data, error }` shape of a supabase response. -/
structure StoreResponse (T : Type) where
  data : Option T
  error : Option StoreError
deriving DecidableEq, Repr

/-- Shallow embedding of `queryEmails` (operations.ts lines 100-109) applied
to the store's response to the built query: a store error is escalated to
`QUERY_ERROR`; otherwise `data || []` is returned. -/
def queryEmails (filter : EmailFilter) (resp : StoreResponse (List Email)) :
    Except JsError (List Email) :=
  withErrorHandling
    (match resp.error with
      | some err =>
        .error (.dbError .QUERY_ERROR "Failed to query emails" (some (.storeErr err)))
      | none => .ok (resp.data.getD []))
    "Failed to query emails"

/-- Shallow embedding of `queryLinks` (operations.ts lines 139-148). -/
def queryLinks (filter : LinkFilter) (resp : StoreResponse (List Link)) :
    Except JsError (List Link) :=
  withErrorHandling
    (match resp.error with
      | some err =>
        .error (.dbError .QUERY_ERROR "Failed to query links" (some (.storeErr err)))
      | none => .ok (resp.data.getD []))
    "Failed to query links"

/-- Shallow embedding of `getEmailById` (operations.ts lines 153-165): on the
specific store error code `'PGRST116'` (no row found) it returns `null`;
any other store error is escalated to `QUERY_ERROR`; otherwise the row is
returned. -/
def getEmailById (id : String) (resp : StoreResponse Email) :
    Except JsError (Option Email) :=
  withErrorHandling
    (match resp.error with
      | some err =>
        if err.code == "PGRST116" then .ok none
        else .error (.dbError .QUERY_ERROR "Failed to get email" (some (.storeErr err)))
      | none => .ok resp.data)
    "Failed to get email"

/-- Shallow embedding of `getLinksByEmailId` (operations.ts lines 170-179):
an `eq('email_id', emailId)` lookup whose store error is escalated to
`QUERY_ERROR` and whose null data collapses to the empty list. -/
def getLinksByEmailId (emailId : String) (resp : StoreResponse (List Link)) :
    Except JsError (List Link) :=
  withErrorHandling
    (match resp.error with
      | some err =>
        .error (.dbError .QUERY_ERROR "Failed to get links" (some (.storeErr err)))
      | none => .ok (resp.data.getD []))
    "Failed to get links"

/-- A live supabase client handle; `instanceId` models JavaScript object
identity, so distinct `createClient` calls yield distinguishable handles. -/
structure Client where
  instanceId : Nat
  url : String
  key : String
deriving DecidableEq, Repr

/-- The two environment variables read by the connection manager. -/
structure Env where
  SUPABASE_URL : Option String
  SUPABASE_ANON_KEY : Option String
deriving DecidableEq, Repr

/-- The connection manager's state: the memoized client (`null` when
uninitialized) plus a freshness counter supplying object identities. -/
structure ConnState where
  client : Option Client
  nextId : Nat
deriving DecidableEq, Repr

/-- Shallow embedding of `SupabaseConnection.initialize` (client.ts lines
27-52), named `initConn` because `initialize` is a Lean keyword. If a client
is memoized it is returned as-is; otherwise the two environment variables are
read, and a falsy value of either (absent or empty) raises `CONNECTION_ERROR`
with the state untouched — no client is constructed. Otherwise a fresh client
is constructed, memoized and returned. (The source additionally wraps a
throwing `createClient` into `CONNECTION_ERROR`; construction is total in
this model.) -/
def initConn (env : Env) (st : ConnState) : Except JsError Client × ConnState :=
  match st.client with
  | some c => (Except.ok c, st)
  | none =>
    if !(truthyStr env.SUPABASE_URL) || !(truthyStr env.SUPABASE_ANON_KEY) then
      (Except.error (JsError.dbError DatabaseErrorType.CONNECTION_ERROR
        "Missing Supabase credentials in environment variables" none), st)
    else
      let c : Client :=
        { instanceId := st.nextId
          url := env.SUPABASE_URL.getD ""
          key := env.SUPABASE_ANON_KEY.getD "" }
      (Except.ok c, { client := some c, nextId := st.nextId + 1 })

/-- Shallow embedding of `SupabaseConnection.getClient` (client.ts lines
58-66). -/
def getClient (st : ConnState) : Except JsError Client :=
  match st.client with
  | some c => Except.ok c
  | none =>
    Except.error (JsError.dbError DatabaseErrorType.CONNECTION_ERROR
      "Supabase client not initialized. Call initialize() first." none)

/-- Shallow embedding of `SupabaseConnection.closeConnection` (client.ts
lines 72-74): clears the memoized handle. -/
def closeConnection (st : ConnState) : ConnState :=
  { st with client := none }

/-- Membership in the predicate list contributed by one truthiness-guarded
builder step. -/
theorem mem_predIf (a p : Pred) (c : Bool) : a ∈ predIf c p ↔ (c = true ∧ a = p) := by
  cases c <;> simp [predIf]

/-- Membership in the predicate list contributed by one presence-guarded
builder step. -/
theorem mem_optPred {A : Type} (a : Pred) (o : Option A) (mk : A → Pred) :
    a ∈ optPred o mk ↔ ∃ x, o = some x ∧ a = mk x := by
  cases o <;> simp [optPred]

/-- Membership in the predicate list contributed by the categories guard. -/
theorem mem_categoriesPred (a : Pred) (o : Option (List String)) :
    a ∈ categoriesPred o ↔
      ∃ cs, o = some cs ∧ cs.length > 0 ∧ a = Pred.contains "categories" cs := by
  cases o with
  | none => simp [categoriesPred]
  | some cs => by_cases hl : cs.length > 0 <;> simp [categoriesPred, predIf, hl]

/-- C5: the propagation policy of `withErrorHandling`: a success passes
through unchanged; a thrown error that is already a domain `DatabaseError`
is re-raised unchanged; any other thrown value is wrapped exactly once into
a `QUERY_ERROR` `DatabaseError` carrying it as the original-error payload;
the outcome of handling an error is always still an error (nothing is
swallowed) and is itself a domain error, so handling it again re-raises it
unchanged rather than double-wrapping. -/
theorem c5ErrorPropagationPolicy (T : Type) (errorMessage msg2 : String)
    (e : JsError) (v : T) :
    (withErrorHandling (Except.ok v) errorMessage = Except.ok v) ∧
    (e.isDatabaseError = true →
      @withErrorHandling T (Except.error e) errorMessage = Except.error e) ∧
    (e.isDatabaseError = false →
      @withErrorHandling T (Except.error e) errorMessage
        = Except.error (JsError.dbError DatabaseErrorType.QUERY_ERROR
            errorMessage (some e))) ∧
    (∃ e2, @withErrorHandling T (Except.error e) errorMessage = Except.error e2 ∧
      e2.isDatabaseError = true) ∧
    (withErrorHandling (@withErrorHandling T (Except.error e) errorMessage) msg2
      = @withErrorHandling T (Except.error e) errorMessage) := by
  cases e <;> simp [withErrorHandling, JsError.isDatabaseError]

/-- C5 witness: a non-domain thrown value is wrapped exactly once at a
concrete input. -/
theorem c5ErrorPropagationPolicyWitness :
    @withErrorHandling Nat (Except.error (JsError.other "boom")) "Failed to query emails"
      = Except.error (JsError.dbError DatabaseErrorType.QUERY_ERROR
          "Failed to query emails" (some (JsError.other "boom"))) :=
  (c5ErrorPropagationPolicy Nat "Failed to query emails" "again"
    (JsError.other "boom") 0).2.2.1 rfl

/-- C3: on a store response carrying an error, `getEmailById` returns `null`
(`Except.ok none`) — and does not raise — exactly when that error's code is
the specific no-row code `'PGRST116'`; absence of a row is therefore never
escalated to a `QUERY_ERROR`. -/
theorem c3GetByIdNoRowReturnsNull (id : String) (resp : StoreResponse Email)
    (err : StoreError) (h : resp.error = some err) :
    getEmailById id resp = Except.ok none ↔ err.code = "PGRST116" := by
  by_cases hc : err.code = "PGRST116" <;>
    simp [getEmailById, withErrorHandling, JsError.isDatabaseError, h, hc]

/-- C3 witness: a concrete no-row response yields `null` without raising. -/
theorem c3GetByIdNoRowReturnsNullWitness :
    getEmailById "123" (StoreResponse.mk none (some (StoreError.mk "PGRST116")))
      = Except.ok none :=
  (c3GetByIdNoRowReturnsNull "123"
    (StoreResponse.mk none (some (StoreError.mk "PGRST116")))
    (StoreError.mk "PGRST116") rfl).mpr rfl

/-- C4: every store-reported error other than the no-row code `'PGRST116'`
is escalated by `getEmailById`, `queryEmails` and `queryLinks` to a
`DatabaseError` whose type discriminant is `QUERY_ERROR` and whose wrapped
original-error payload is the store's error. -/
theorem c4StoreErrorsEscalateToQueryError (id : String) (fe : EmailFilter)
    (fl : LinkFilter) (err : StoreError) (re : StoreResponse Email)
    (rq : StoreResponse (List Email)) (rl : StoreResponse (List Link))
    (hcode : err.code ≠ "PGRST116") :
    (re.error = some err →
      getEmailById id re = Except.error (JsError.dbError DatabaseErrorType.QUERY_ERROR
        "Failed to get email" (some (JsError.storeErr err)))) ∧
    (rq.error = some err →
      queryEmails fe rq = Except.error (JsError.dbError DatabaseErrorType.QUERY_ERROR
        "Failed to query emails" (some (JsError.storeErr err)))) ∧
    (rl.error = some err →
      queryLinks fl rl = Except.error (JsError.dbError DatabaseErrorType.QUERY_ERROR
        "Failed to query links" (some (JsError.storeErr err)))) := by
  refine ⟨?_, ?_, ?_⟩ <;> intro h <;>
    simp [getEmailById, queryEmails, queryLinks, withErrorHandling,
      JsError.isDatabaseError, h, hcode]

/-- C4 witness: a concrete constraint-violation store error escalates to
`QUERY_ERROR` wrapping it. -/
theorem c4StoreErrorsEscalateToQueryErrorWitness :
    getEmailById "123" (StoreResponse.mk none (some (StoreError.mk "23505")))
      = Except.error (JsError.dbError DatabaseErrorType.QUERY_ERROR
          "Failed to get email" (some (JsError.storeErr (StoreError.mk "23505")))) :=
  (c4StoreErrorsEscalateToQueryError "123" {} {} (StoreError.mk "23505")
    (StoreResponse.mk none (some (StoreError.mk "23505")))
    (StoreResponse.mk none none) (StoreResponse.mk none none)
    (by decide)).1 rfl

/-- C9: `queryEmails`, `queryLinks` and `getLinksByEmailId` return the empty
sequence — their success value is a list, never null or absent — whenever the
store reports zero rows or a null result set. -/
theorem c9NullResultSetYieldsEmptyList (fe : EmailFilter) (fl : LinkFilter)
    (emailId : String) (re : StoreResponse (List Email))
    (rl rp : StoreResponse (List Link)) :
    (re.error = none → (re.data = none ∨ re.data = some []) →
      queryEmails fe re = Except.ok []) ∧
    (rl.error = none → (rl.data = none ∨ rl.data = some []) →
      queryLinks fl rl = Except.ok []) ∧
    (rp.error = none → (rp.data = none ∨ rp.data = some []) →
      getLinksByEmailId emailId rp = Except.ok []) := by
  refine ⟨?_, ?_, ?_⟩ <;> rintro h (hd | hd) <;>
    simp [queryEmails, queryLinks, getLinksByEmailId, withErrorHandling, h, hd]

/-- C9 witness: a concrete null result set yields the empty list. -/
theorem c9NullResultSetYieldsEmptyListWitness :
    queryEmails {} (StoreResponse.mk none none) = Except.ok [] :=
  (c9NullResultSetYieldsEmptyList {} {} "123" (StoreResponse.mk none none)
    (StoreResponse.mk none none) (StoreResponse.mk none none)).1 rfl (Or.inl rfl)

/-- C6: whenever a call to `initialize` succeeds with handle `c` and leaves
state `st2`, that handle is memoized in `st2`, and any further call — under
any environment — returns the identical handle with the state unchanged:
`initialize` is idempotent after the first success, so at most one live
handle exists per process. -/
theorem c6InitializeMemoizedSingleton (env env2 : Env) (st st2 : ConnState)
    (c : Client) (h : initConn env st = (Except.ok c, st2)) :
    st2.client = some c ∧ initConn env2 st2 = (Except.ok c, st2) := by
  have hc : st2.client = some c := by
    cases hst : st.client with
    | some c0 =>
      simp only [initConn, hst, Prod.mk.injEq, Except.ok.injEq] at h
      rw [← h.2, hst, h.1]
    | none =>
      simp only [initConn, hst] at h
      split at h
      · simp at h
      · simp only [Prod.mk.injEq, Except.ok.injEq] at h
        rw [← h.2]
        simp [← h.1]
  refine ⟨hc, ?_⟩
  simp [initConn, hc]

/-- C6 witness: with concrete credentials, a second call after a first
successful one returns the identical handle instance. -/
theorem c6InitializeMemoizedSingletonWitness :
    initConn (Env.mk (some "https://example.supabase.co") (some "anon-key"))
        (ConnState.mk (some (Client.mk 0 "https://example.supabase.co" "anon-key")) 1)
      = (Except.ok (Client.mk 0 "https://example.supabase.co" "anon-key"),
         ConnState.mk (some (Client.mk 0 "https://example.supabase.co" "anon-key")) 1) :=
  (c6InitializeMemoizedSingleton
    (Env.mk (some "https://example.supabase.co") (some "anon-key"))
    (Env.mk (some "https://example.supabase.co") (some "anon-key"))
    (ConnState.mk none 0)
    (ConnState.mk (some (Client.mk 0 "https://example.supabase.co" "anon-key")) 1)
    (Client.mk 0 "https://example.supabase.co" "anon-key") rfl).2

/-- C7: if either required environment variable is absent, `initialize` on an
uninitialized manager fails with a `CONNECTION_ERROR` and returns the state
untouched: the memoized client stays `none` (the manager remains
UNINITIALIZED) and the identity counter is untouched, i.e. no client was
constructed before the failure. -/
theorem c7MissingCredentialsConnectionError (env : Env) (st : ConnState)
    (hun : st.client = none)
    (hmiss : env.SUPABASE_URL = none ∨ env.SUPABASE_ANON_KEY = none) :
    initConn env st
      = (Except.error (JsError.dbError DatabaseErrorType.CONNECTION_ERROR
          "Missing Supabase credentials in environment variables" none), st) := by
  rcases hmiss with hm | hm <;> simp [initConn, hun, hm, truthyStr]

/-- C7 witness: a concrete environment missing the access key fails with
`CONNECTION_ERROR` and leaves the manager uninitialized. -/
theorem c7MissingCredentialsConnectionErrorWitness :
    initConn (Env.mk (some "https://example.supabase.co") none) (ConnState.mk none 0)
      = (Except.error (JsError.dbError DatabaseErrorType.CONNECTION_ERROR
          "Missing Supabase credentials in environment variables" none),
         ConnState.mk none 0) :=
  c7MissingCredentialsConnectionError
    (Env.mk (some "https://example.supabase.co") none) (ConnState.mk none 0)
    rfl (Or.inr rfl)

/-- C8: a filter whose optional fields are all absent issues no predicates
(for emails and links alike), and the query then returns the store's rows
unfiltered; moreover an empty-string text field behaves exactly like an
absent one — it imposes no constraint and is never confused with matching
the empty string. -/
theorem c8AbsentFieldsImposeNoConstraint :
    (buildEmailQuery {}).preds = [] ∧
    (buildLinkQuery {}).preds = [] ∧
    (∀ resp : StoreResponse (List Email), ∀ rows : List Email,
      resp.error = none → resp.data = some rows →
      queryEmails {} resp = Except.ok rows) ∧
    (∀ f : EmailFilter, f.sender = some "" →
      buildEmailQuery f = buildEmailQuery { f with sender := none }) ∧
    (∀ f : EmailFilter, f.subject = some "" →
      buildEmailQuery f = buildEmailQuery { f with subject := none }) ∧
    (∀ g : LinkFilter, g.url = some "" →
      buildLinkQuery g = buildLinkQuery { g with url := none }) := by
  refine ⟨rfl, rfl, ?_, ?_, ?_, ?_⟩
  · intro resp rows h hd
    simp [queryEmails, withErrorHandling, h, hd]
  · intro f hf
    simp [buildEmailQuery, hf, truthyStr, predIf]
  · intro f hf
    simp [buildEmailQuery, hf, truthyStr, predIf]
  · intro g hg
    simp [buildLinkQuery, hg, truthyStr, predIf]

/-- C8 witness: the all-absent email filter returns a concrete nonempty
result set unchanged. -/
theorem c8AbsentFieldsImposeNoConstraintWitness :
    queryEmails {}
      (StoreResponse.mk
        (some [Email.mk "1" "a@b.c" "hi" 0 none none none false 0]) none)
      = Except.ok [Email.mk "1" "a@b.c" "hi" 0 none none none false 0] :=
  c8AbsentFieldsImposeNoConstraint.2.2.1
    (StoreResponse.mk (some [Email.mk "1" "a@b.c" "hi" 0 none none none false 0]) none)
    [Email.mk "1" "a@b.c" "hi" 0 none none none false 0] rfl rfl

/-- The spec's scenario filter: sender "test", processed true, limit 10,
offset 0. -/
def scenarioFilter : EmailFilter :=
  { sender := some "test", processed := some true, limit := some 10, offset := some 0 }

/-- C1 counterexample: on the scenario filter the builder issues the
substring, equality and limit predicates but no pagination predicate at all
— in particular not the inclusive row range [0,9] the claim requires —
because the guard `if (filter.offset)` treats the offset 0 as falsy. -/
theorem c1ScenarioOffsetZeroHasNoRange :
    (buildEmailQuery scenarioFilter).preds
      = [Pred.ilike "sender" "%test%", Pred.eq "processed" (JsVal.vbool true),
         Pred.limit 10] ∧
    Pred.range 0 9 ∉ (buildEmailQuery scenarioFilter).preds := by
  refine ⟨rfl, ?_⟩
  decide

/-- C1 (amended): for every email filter with limit 10, an offset of 0 is
treated as absent — the built query is identical to the one with no offset,
so the scenario filter produces exactly the substring predicate on sender,
the equality predicate on processed, and the limit-10 cap — while a nonzero
offset appends the single pagination predicate for the inclusive row range
[offset, offset + 9] after the other predicates. -/
theorem c1LimitTenPagination (f : EmailFilter) (h : f.limit = some 10) :
    (f.offset = some 0 → buildEmailQuery f = buildEmailQuery { f with offset := none }) ∧
    (∀ o : Int, f.offset = some o → o ≠ 0 →
      (buildEmailQuery f).preds
        = (buildEmailQuery { f with offset := none }).preds ++ [Pred.range o (o + 9)]) ∧
    (buildEmailQuery scenarioFilter).preds
      = [Pred.ilike "sender" "%test%", Pred.eq "processed" (JsVal.vbool true),
         Pred.limit 10] := by
  refine ⟨?_, ?_, rfl⟩
  · intro h0
    simp [buildEmailQuery, h0, truthyInt, predIf]
  · intro o ho hne
    have harith : o + 10 - 1 = o + 9 := by omega
    simp [buildEmailQuery, ho, h, truthyInt, predIf, orDefault, hne, harith]

/-- C1 witness: the scenario filter moved to the nonzero offset 5 appends
the pagination predicate [5,14]. -/
theorem c1LimitTenPaginationWitness :
    (buildEmailQuery { scenarioFilter with offset := some 5 }).preds
      = (buildEmailQuery { scenarioFilter with offset := none }).preds
        ++ [Pred.range 5 (5 + 9)] :=
  (c1LimitTenPagination { scenarioFilter with offset := some 5 } rfl).2.1 5 rfl
    (by decide)

/-- C2 counterexample: the filter with offset 0 and no limit is one whose
offset is present, yet the builder issues no predicate at all — in
particular not the inclusive row range [0,9] the claim requires — because
`if (filter.offset)` treats 0 as falsy. -/
theorem c2OffsetZeroPresentButNoRange :
    ({ offset := some 0 } : EmailFilter).offset = some 0 ∧
    ({ offset := some 0 } : EmailFilter).limit = none ∧
    (buildEmailQuery { offset := some 0 }).preds = [] ∧
    Pred.range 0 9 ∉ (buildEmailQuery { offset := some 0 }).preds := by
  refine ⟨rfl, rfl, rfl, ?_⟩
  decide

/-- C2 (amended): the pagination window follows JS truthiness of the filter
fields, for the email and link builders alike: with a nonzero offset, an
absent or zero limit yields the inclusive row range [offset, offset + 9]
(effective page size 10) — e.g. offset 5 with no limit yields [5,14] — and a
nonzero limit l yields [offset, offset + l - 1]; a zero offset issues no
pagination predicate at all. -/
theorem c2PaginationWindow (f : EmailFilter) (g : LinkFilter) (o : Int)
    (hne : o ≠ 0) :
    (f.offset = some o → (f.limit = none ∨ f.limit = some 0) →
      Pred.range o (o + 9) ∈ (buildEmailQuery f).preds) ∧
    (∀ l : Int, l ≠ 0 → f.offset = some o → f.limit = some l →
      Pred.range o (o + l - 1) ∈ (buildEmailQuery f).preds) ∧
    (g.offset = some o → (g.limit = none ∨ g.limit = some 0) →
      Pred.range o (o + 9) ∈ (buildLinkQuery g).preds) ∧
    (∀ l : Int, l ≠ 0 → g.offset = some o → g.limit = some l →
      Pred.range o (o + l - 1) ∈ (buildLinkQuery g).preds) ∧
    (∀ fz : EmailFilter, fz.offset = some 0 →
      ∀ lo hi : Int, Pred.range lo hi ∉ (buildEmailQuery fz).preds) := by
  have harith : o + 10 - 1 = o + 9 := by omega
  refine ⟨?_, ?_, ?_, ?_, ?_⟩
  · intro ho hl
    rcases hl with hl | hl <;>
      simp [buildEmailQuery, List.mem_append, mem_predIf, mem_optPred, ho, hl,
        truthyInt, orDefault, hne, harith, predIf]
  · intro l hlne ho hl
    simp [buildEmailQuery, List.mem_append, mem_predIf, mem_optPred, ho, hl,
      truthyInt, orDefault, hne, hlne, predIf]
  · intro ho hl
    rcases hl with hl | hl <;>
      simp [buildLinkQuery, List.mem_append, mem_predIf, mem_optPred, mem_categoriesPred, ho, hl,
        truthyInt, orDefault, hne, harith, predIf]
  · intro l hlne ho hl
    simp [buildLinkQuery, List.mem_append, mem_predIf, mem_optPred, mem_categoriesPred, ho, hl,
      truthyInt, orDefault, hne, hlne, predIf]
  · intro fz hz lo hi
    simp [buildEmailQuery, List.mem_append, mem_predIf, mem_optPred, hz, truthyInt]

/-- C2 witness: offset 5 with no limit requests the range [5,14]. -/
theorem c2PaginationWindowWitness :
    Pred.range 5 (5 + 9) ∈ (buildEmailQuery { offset := some 5 }).preds :=
  (c2PaginationWindow { offset := some 5 } {} 5 (by decide)).1 rfl (Or.inl rfl)

/-- C10 counterexample: with limit 0 and offset 0 — the offset is present —
the builder issues no pagination predicate at all, not the range [0,9] the
claim requires. -/
theorem c10ZeroLimitZeroOffsetNoRange :
    ({ limit := some 0, offset := some 0 } : EmailFilter).limit = some 0 ∧
    ({ limit := some 0, offset := some 0 } : EmailFilter).offset = some 0 ∧
    (buildEmailQuery { limit := some 0, offset := some 0 }).preds = [] ∧
    Pred.range 0 9 ∉ (buildEmailQuery { limit := some 0, offset := some 0 }).preds := by
  refine ⟨rfl, rfl, rfl, ?_⟩
  decide

/-- C10 (amended): with limit 0 neither builder issues a result cap, and the
pagination window falls back to the default page size 10 — the range
[offset, offset + 9] — only for a nonzero offset; a zero offset is itself
treated as absent by the same truthiness guard and issues no pagination
predicate. -/
theorem c10ZeroLimitBehavior (f : EmailFilter) (g : LinkFilter)
    (hf : f.limit = some 0) (hg : g.limit = some 0) :
    (∀ n : Int, Pred.limit n ∉ (buildEmailQuery f).preds) ∧
    (∀ o : Int, o ≠ 0 → f.offset = some o →
      Pred.range o (o + 9) ∈ (buildEmailQuery f).preds) ∧
    (f.offset = some 0 → ∀ lo hi : Int, Pred.range lo hi ∉ (buildEmailQuery f).preds) ∧
    (∀ n : Int, Pred.limit n ∉ (buildLinkQuery g).preds) ∧
    (∀ o : Int, o ≠ 0 → g.offset = some o →
      Pred.range o (o + 9) ∈ (buildLinkQuery g).preds) ∧
    (g.offset = some 0 → ∀ lo hi : Int, Pred.range lo hi ∉ (buildLinkQuery g).preds) := by
  refine ⟨?_, ?_, ?_, ?_, ?_, ?_⟩
  · intro n
    simp [buildEmailQuery, List.mem_append, mem_predIf, mem_optPred, hf, truthyInt]
  · intro o hne ho
    have harith : o + 10 - 1 = o + 9 := by omega
    simp [buildEmailQuery, List.mem_append, mem_predIf, mem_optPred, hf, ho,
      truthyInt, orDefault, hne, harith, predIf]
  · intro hz lo hi
    simp [buildEmailQuery, List.mem_append, mem_predIf, mem_optPred, hf, hz, truthyInt]
  · intro n
    simp [buildLinkQuery, List.mem_append, mem_predIf, mem_optPred, mem_categoriesPred, hg, truthyInt]
  · intro o hne ho
    have harith : o + 10 - 1 = o + 9 := by omega
    simp [buildLinkQuery, List.mem_append, mem_predIf, mem_optPred, mem_categoriesPred, hg, ho,
      truthyInt, orDefault, hne, harith, predIf]
  · intro hz lo hi
    simp [buildLinkQuery, List.mem_append, mem_predIf, mem_optPred, mem_categoriesPred, hg, hz, truthyInt]

/-- C10 witness: limit 0 with the nonzero offset 5 requests the default-size
range [5,14] while issuing no result cap. -/
theorem c10ZeroLimitBehaviorWitness :
    Pred.range 5 (5 + 9) ∈ (buildEmailQuery { limit := some 0, offset := some 5 }).preds ∧
    Pred.limit 0 ∉ (buildEmailQuery { limit := some 0, offset := some 5 }).preds :=
  And.intro
    ((c10ZeroLimitBehavior { limit := some 0, offset := some 5 } { limit := some 0 } rfl rfl).2.1 5
      (by decide) rfl)
    ((c10ZeroLimitBehavior { limit := some 0, offset := some 5 } { limit := some 0 } rfl rfl).1 0)

end EmailAgent
